import Mathlib

/-
Verification of the Linera Dominion core: a shallow embedding of the
battle combat engine (battle/src/combat.rs), the battle turn controller
(battle/src/contract.rs), the region fleet-reveal handler
(region/src/contract.rs), the coordinate/shard mapping
(common/src/coordinates.rs) and the commit-reveal and procedural
generation utilities (common/src/crypto.rs), together with theorems
settling the specification's claims about them.

Machine integers (u32/u64/u128) are modelled as Nat: none of the claims
under scrutiny concerns wrap-around, and the quantities involved
(ship counts, stat tables, turn counters) stay far below the machine
bounds on every reachable input. Rust saturating_sub on unsigned
integers is exactly Nat subtraction. i64 values are modelled as Int.
-/

namespace Dominion

/-! ## Combat engine (battle/src/combat.rs) -/

/-- battle/src/state.rs `CombatantData`: per-combatant battle bookkeeping. -/
structure CombatantData where
  owner_chain : String
  ships : List Nat
  remaining_ships : List Nat
  bonded_iron : Nat
  bonded_deuterium : Nat
  bonded_crystals : Nat
  is_defender : Bool
  has_retreated : Bool
deriving DecidableEq, Repr

/-- combat.rs `SHIP_ATTACK`: attack power by ship type index. -/
def SHIP_ATTACK : List Nat := [5, 15, 50, 150, 100, 5, 1, 20, 80, 300]

/-- combat.rs `SHIP_DEFENSE`: defense power by ship type index. -/
def SHIP_DEFENSE : List Nat := [2, 10, 30, 100, 150, 10, 5, 15, 50, 200]

/-- Rust `table.get(i).copied().unwrap_or(d)`. -/
def statAt (table : List Nat) (d i : Nat) : Nat := (table.get? i).getD d

/-- combat.rs `calculate_damage`: each side's base attack minus half the
opposing side's summed defense, saturating at zero. -/
def calculate_damage (attacker defender : CombatantData) : Nat × Nat :=
  let attacker_base := (attacker.ships.enum.map (fun p => p.2 * statAt SHIP_ATTACK 10 p.1)).sum
  let defender_base := (defender.ships.enum.map (fun p => p.2 * statAt SHIP_ATTACK 10 p.1)).sum
  let attacker_defense := (attacker.ships.enum.map (fun p => p.2 * statAt SHIP_DEFENSE 5 p.1)).sum
  let defender_defense := (defender.ships.enum.map (fun p => p.2 * statAt SHIP_DEFENSE 5 p.1)).sum
  (attacker_base - defender_defense / 2, defender_base - attacker_defense / 2)

/-- The loop body of combat.rs `calculate_losses`: walk the ship types in
ascending index order, spending the remaining damage budget. -/
def lossesGo (i rem : Nat) : List Nat → List Nat
  | [] => []
  | count :: rest =>
    if count = 0 ∨ rem = 0 then 0 :: lossesGo (i + 1) rem rest
    else
      let hp_per_ship := statAt SHIP_DEFENSE 10 i * 10
      let ships_lost := min (rem / hp_per_ship) count
      ships_lost :: lossesGo (i + 1) (rem - ships_lost * hp_per_ship) rest

/-- combat.rs `calculate_losses`. -/
def calculate_losses (combatant : CombatantData) (damage : Nat) : List Nat :=
  lossesGo 0 damage combatant.ships

/-- The loop of combat.rs `apply_losses`: indexwise saturating subtraction,
ignoring loss entries beyond the remaining-ships length and keeping
untouched entries beyond the losses length. -/
def applyGo : List Nat → List Nat → List Nat
  | rs, [] => rs
  | [], _ :: _ => []
  | r :: rs, l :: ls => (r - l) :: applyGo rs ls

/-- combat.rs `apply_losses`. -/
def apply_losses (combatant : CombatantData) (losses : List Nat) : CombatantData :=
  { combatant with remaining_ships := applyGo combatant.remaining_ships losses }

/-! Specification-side restatements of the combat formulas, written from
the claims' words, to be compared with the source definitions. -/

/-- Spec-side weighted sum over ship types starting at index `i`:
sum of count × stat with the fixed fallback for uncovered indices. -/
def sumStatFrom (table : List Nat) (d : Nat) : Nat → List Nat → Nat
  | _, [] => 0
  | i, c :: rest => c * statAt table d i + sumStatFrom table d (i + 1) rest

/-- Spec-side per-round net damage of the side with ships `own` against the
side with ships `opp`: summed attack minus half the opponent's summed
defense, floored at zero. -/
def specNetDamage (own opp : List Nat) : Nat :=
  sumStatFrom SHIP_ATTACK 10 0 own - sumStatFrom SHIP_DEFENSE 5 0 opp / 2

/-- Spec-side loss allocation: ship-type by ship-type in ascending index
order; for each type with nonzero remaining damage and nonzero count,
destroy min(remaining ÷ hp, count) ships at hp = defense stat × 10 and
subtract the destroyed hit points from the budget. -/
def lossesSpecGo (i rem : Nat) : List Nat → List Nat
  | [] => []
  | count :: rest =>
    if rem ≠ 0 ∧ count ≠ 0 then
      let hp := statAt SHIP_DEFENSE 10 i * 10
      let destroyed := min (rem / hp) count
      destroyed :: lossesSpecGo (i + 1) (rem - destroyed * hp) rest
    else 0 :: lossesSpecGo (i + 1) rem rest

/-- The example combatants of the specification's end-to-end scenario. -/
def scoutTen : CombatantData :=
  { owner_chain := "attacker", ships := [10], remaining_ships := [10],
    bonded_iron := 0, bonded_deuterium := 0, bonded_crystals := 0,
    is_defender := false, has_retreated := false }

def fighterFive : CombatantData :=
  { owner_chain := "defender", ships := [0, 5], remaining_ships := [0, 5],
    bonded_iron := 0, bonded_deuterium := 0, bonded_crystals := 0,
    is_defender := true, has_retreated := false }

def zeroShips : CombatantData :=
  { owner_chain := "empty", ships := [0, 0, 0], remaining_ships := [0, 0, 0],
    bonded_iron := 0, bonded_deuterium := 0, bonded_crystals := 0,
    is_defender := false, has_retreated := false }

theorem sum_enumFrom (table : List Nat) (d : Nat) (l : List Nat) :
    ∀ i : Nat,
      ((List.enumFrom i l).map (fun p => p.2 * statAt table d p.1)).sum
        = sumStatFrom table d i l := by
  induction l with
  | nil => intro i; rfl
  | cons c rest ih =>
    intro i
    simp [List.enumFrom, sumStatFrom, ih]

theorem sumStatFrom_eq_zero (table : List Nat) (d : Nat) (l : List Nat)
    (h : ∀ c ∈ l, c = 0) : ∀ i : Nat, sumStatFrom table d i l = 0 := by
  induction l with
  | nil => intro i; rfl
  | cons c rest ih =>
    intro i
    have hc : c = 0 := h c (by simp)
    have hrest : ∀ c ∈ rest, c = 0 := fun x hx => h x (by simp [hx])
    simp [sumStatFrom, hc, ih hrest]

theorem calculate_damage_eq_spec (a d : CombatantData) :
    calculate_damage a d = (specNetDamage a.ships d.ships, specNetDamage d.ships a.ships) := by
  simp [calculate_damage, specNetDamage, List.enum, sum_enumFrom]

theorem lossesGo_eq_spec (l : List Nat) :
    ∀ i rem : Nat, lossesGo i rem l = lossesSpecGo i rem l := by
  induction l with
  | nil => intro i rem; rfl
  | cons c rest ih =>
    intro i rem
    by_cases h : c = 0 ∨ rem = 0
    · have h2 : ¬(rem ≠ 0 ∧ c ≠ 0) := by tauto
      simp [lossesGo, lossesSpecGo, h, h2, ih]
    · have h2 : rem ≠ 0 ∧ c ≠ 0 := by tauto
      simp [lossesGo, lossesSpecGo, h, h2, ih]

theorem applyGo_length (rs : List Nat) :
    ∀ ls : List Nat, (applyGo rs ls).length = rs.length := by
  induction rs with
  | nil => intro ls; cases ls <;> rfl
  | cons r rs ih =>
    intro ls
    cases ls with
    | nil => rfl
    | cons l ls => simp [applyGo, ih]

theorem applyGo_getD (rs : List Nat) :
    ∀ (ls : List Nat) (i : Nat),
      (applyGo rs ls).getD i 0 = rs.getD i 0 - ls.getD i 0 := by
  induction rs with
  | nil =>
    intro ls i
    cases ls with
    | nil => simp [applyGo]
    | cons l ls => simp [applyGo]
  | cons r rs ih =>
    intro ls i
    cases ls with
    | nil => simp [applyGo]
    | cons l ls =>
      cases i with
      | zero => simp [applyGo]
      | succ j => simpa [applyGo] using ih ls j

/-- C3: for every pair of combatants, each side's per-round damage is its
summed count × attack stat (with the fixed fallback for indices outside the
static table) minus half of the opposing side's summed count × defense stat
(same fallback mechanism), floored at zero, both sides computed from the
same pre-round ship counts; the specification's example — 10 type-0 ships
versus 5 type-1 ships — yields net damages 25 and 65, and an attacker with
zero ships deals zero damage. -/
theorem c3_per_round_damage :
    (∀ a d : CombatantData,
        calculate_damage a d = (specNetDamage a.ships d.ships, specNetDamage d.ships a.ships))
    ∧ calculate_damage scoutTen fighterFive = (25, 65)
    ∧ (∀ a d : CombatantData, (∀ c ∈ a.ships, c = 0) → (calculate_damage a d).1 = 0) := by
  refine ⟨calculate_damage_eq_spec, by decide, ?_⟩
  intro a d h
  rw [calculate_damage_eq_spec]
  simp [specNetDamage, sumStatFrom_eq_zero SHIP_ATTACK 10 a.ships h]

theorem c3_per_round_damage_witness :
    (calculate_damage zeroShips scoutTen).1 = 0 :=
  c3_per_round_damage.2.2 zeroShips scoutTen (by decide)

/-- C4: loss allocation walks the ship types in ascending index order,
destroying min(remaining ÷ hp, count) ships per type at hp = defense
stat × 10 (fallback default × 10 for uncovered indices) and deducting the
destroyed hit points from the budget before the next type; applying losses
subtracts entrywise from the remaining counts with floor-at-zero
saturation and preserves the vector length. -/
theorem c4_loss_allocation :
    (∀ (c : CombatantData) (damage : Nat),
        calculate_losses c damage = lossesSpecGo 0 damage c.ships)
    ∧ (∀ (c : CombatantData) (losses : List Nat),
        (apply_losses c losses).remaining_ships.length = c.remaining_ships.length
        ∧ ∀ i : Nat,
            (apply_losses c losses).remaining_ships.getD i 0
              = c.remaining_ships.getD i 0 - losses.getD i 0) := by
  constructor
  · intro c damage
    simp [calculate_losses, lossesGo_eq_spec]
  · intro c losses
    exact ⟨applyGo_length c.remaining_ships losses,
           fun i => applyGo_getD c.remaining_ships losses i⟩

/-! ## Battle turn controller (battle/src/contract.rs, battle/src/lib.rs) -/

/-- battle/src/lib.rs `BattleError`. -/
inductive BattleError where
  | BattleNotActive
  | NotCombatant
  | AlreadySubmitted
  | FleetNotFound (id : Nat)
  | InvalidCommand
  | BattleEnded
  | TimeoutNotReached
  | NotAuthorized
deriving DecidableEq, Repr

/-- battle/src/lib.rs `TacticalCommand`. -/
inductive TacticalCommand where
  | AllOutAttack
  | DefensiveStance
  | FocusFire
  | Flank
  | Hold
  | Retreat
  | LaunchFighters
  | FieldRepair
deriving DecidableEq, Repr

/-- battle/src/lib.rs `ResourceInput`. -/
structure ResourceInput where
  iron : Nat
  deuterium : Nat
  crystals : Nat
deriving DecidableEq, Repr

/-- battle/src/lib.rs `Operation`. -/
inductive Operation where
  | SubmitCommand (fleet_id : Nat) (command : TacticalCommand) (target_priority : Option Nat)
  | RequestResolution
  | ForceTimeout
  | ExtendWarBond (additional : ResourceInput)
deriving DecidableEq, Repr

/-- battle/src/state.rs `TurnRecordData`. -/
structure TurnRecordData where
  actions : List Nat
  damages : List Nat
  losses : List Nat
  timestamp_micros : Nat
deriving DecidableEq, Repr

/-- battle/src/state.rs `WarBondData`. -/
structure WarBondData where
  iron : Nat
  deuterium : Nat
  crystals : Nat
deriving DecidableEq, Repr

/-- battle/src/state.rs `BattleState`: the MapViews become association
lists keyed as in the source. -/
structure BattleState where
  battle_id : Nat
  region_chain : String
  position_x : Int
  position_y : Int
  current_turn : Nat
  max_turns : Nat
  turn_duration_micros : Nat
  is_active : Bool
  start_time_micros : Nat
  combatants : List (Nat × CombatantData)
  combatant_count : Nat
  turn_records : List (Nat × TurnRecordData)
  war_bonds : List (Nat × WarBondData)
deriving DecidableEq, Repr

/-- battle/src/contract.rs `process_turn`: increments the turn counter and
deactivates the battle once the new counter reaches `max_turns`. It does
not touch `turn_records` or `combatants`. -/
def process_turn (s : BattleState) (_now_micros : Nat) : BattleState :=
  let current_turn := s.current_turn
  let max_turns := s.max_turns
  let s1 := { s with current_turn := current_turn + 1 }
  if current_turn + 1 ≥ max_turns then { s1 with is_active := false } else s1

/-- battle/src/contract.rs `execute_operation`. The Rust method mutates
`self.state` and returns `Result<(), BattleError>`; the embedding returns
the result together with the (possibly unchanged) state. -/
def execute_operation (s : BattleState) (operation : Operation) (now_micros : Nat) :
    Except BattleError Unit × BattleState :=
  if s.is_active = false then (.error .BattleNotActive, s)
  else
    match operation with
    | .SubmitCommand _ _ _ => (.ok (), s)
    | .RequestResolution => (.ok (), process_turn s now_micros)
    | .ForceTimeout =>
        let expected_time := s.start_time_micros + (s.current_turn + 1) * s.turn_duration_micros
        if now_micros < expected_time then (.error .TimeoutNotReached, s)
        else (.ok (), { s with is_active := false })
    | .ExtendWarBond _ => (.ok (), s)

/-- A concrete active battle: turn 0 of at most 5, turn duration 1s,
started at time 0, attacker `scoutTen` versus defender `fighterFive`,
empty turn-record log. -/
def c1Battle : BattleState :=
  { battle_id := 0, region_chain := "", position_x := 0, position_y := 0,
    current_turn := 0, max_turns := 5, turn_duration_micros := 1000000,
    is_active := true, start_time_micros := 0,
    combatants := [(0, scoutTen), (1, fighterFive)], combatant_count := 2,
    turn_records := [], war_bonds := [] }

/-- C1 (failing input): on an active battle, `RequestResolution` succeeds
and advances the turn counter by one, and a `RequestResolution` attempted
once the battle is inactive fails with the battle-not-active error — but,
contrary to the claim, the turn-record log stays empty and the combatants
(hence all ship counts) are untouched: the Combat Resolution Engine is
never run and no TurnRecord is appended. -/
theorem c1_request_resolution_is_stub :
    execute_operation c1Battle .RequestResolution 0
      = (.ok (), { c1Battle with current_turn := 1 })
    ∧ (execute_operation c1Battle .RequestResolution 0).2.turn_records = []
    ∧ (execute_operation c1Battle .RequestResolution 0).2.combatants
        = [(0, scoutTen), (1, fighterFive)]
    ∧ execute_operation { c1Battle with is_active := false } .RequestResolution 0
        = (.error .BattleNotActive, { c1Battle with is_active := false }) :=
  ⟨rfl, rfl, rfl, rfl⟩

/-- The battle used for the ForceTimeout boundary analysis: start time 0,
turn duration 10, current turn 0, so the threshold time is 10. -/
def c5Battle : BattleState := { c1Battle with turn_duration_micros := 10 }

/-- C5 (counterexample): at time 10 the elapsed time since battle start
equals, and therefore does not exceed, `(current_turn + 1) × turn_duration`
— yet `ForceTimeout` succeeds and ends the battle, refuting "legal only
once the elapsed time ... exceeds". -/
theorem c5_boundary_counterexample :
    ¬ ((10 : Nat) - c5Battle.start_time_micros
        > (c5Battle.current_turn + 1) * c5Battle.turn_duration_micros)
    ∧ execute_operation c5Battle .ForceTimeout 10
        = (.ok (), { c5Battle with is_active := false }) :=
  ⟨by decide, rfl⟩

/-- C5 (amended): while the battle is active, `ForceTimeout` before
`start + (current_turn + 1) × turn_duration` is rejected with the
timeout-not-reached error and leaves the state unchanged; at or after that
time it succeeds and transitions the battle to Ended; and once ended,
every operation — a repeated `ForceTimeout` included — is rejected with
the battle-not-active error, leaving the ended state unchanged. -/
theorem c5_force_timeout :
    ∀ (s : BattleState) (now : Nat), s.is_active = true →
      (now < s.start_time_micros + (s.current_turn + 1) * s.turn_duration_micros →
        execute_operation s .ForceTimeout now = (.error .TimeoutNotReached, s))
      ∧ (s.start_time_micros + (s.current_turn + 1) * s.turn_duration_micros ≤ now →
        execute_operation s .ForceTimeout now = (.ok (), { s with is_active := false }))
      ∧ (∀ (op : Operation) (later : Nat),
          execute_operation { s with is_active := false } op later
            = (.error .BattleNotActive, { s with is_active := false })) := by
  intro s now hact
  refine ⟨?_, ?_, ?_⟩
  · intro hlt
    simp [execute_operation, hact, hlt]
  · intro hle
    have hnot : ¬ now < s.start_time_micros + (s.current_turn + 1) * s.turn_duration_micros :=
      Nat.not_lt.2 hle
    simp [execute_operation, hact, hnot]
  · intro op later
    simp [execute_operation]

theorem c5_force_timeout_witness :
    execute_operation c5Battle .ForceTimeout 3 = (.error .TimeoutNotReached, c5Battle)
    ∧ execute_operation c5Battle .ForceTimeout 11
        = (.ok (), { c5Battle with is_active := false })
    ∧ execute_operation { c5Battle with is_active := false } .ForceTimeout 99
        = (.error .BattleNotActive, { c5Battle with is_active := false }) :=
  ⟨(c5_force_timeout c5Battle 3 rfl).1 (by decide),
   (c5_force_timeout c5Battle 11 rfl).2.1 (by decide),
   (c5_force_timeout c5Battle 11 rfl).2.2 .ForceTimeout 99⟩

/-- C10: while the battle is active, `SubmitCommand` and `ExtendWarBond`
both succeed and return the state completely unchanged: no command is
recorded and no resources are added to any war bond. -/
theorem c10_submit_and_bond_are_noops :
    ∀ (s : BattleState) (now fid : Nat) (cmd : TacticalCommand)
      (tp : Option Nat) (add : ResourceInput),
      s.is_active = true →
        execute_operation s (.SubmitCommand fid cmd tp) now = (.ok (), s)
        ∧ execute_operation s (.ExtendWarBond add) now = (.ok (), s) := by
  intro s now fid cmd tp add hact
  constructor <;> simp [execute_operation, hact]

theorem c10_submit_and_bond_are_noops_witness :
    execute_operation c1Battle (.SubmitCommand 0 .Hold none) 7 = (.ok (), c1Battle)
    ∧ execute_operation c1Battle (.ExtendWarBond ⟨1, 2, 3⟩) 7 = (.ok (), c1Battle) :=
  c10_submit_and_bond_are_noops c1Battle 7 0 .Hold none ⟨1, 2, 3⟩ rfl

/-! ## Coordinates and shard mapping (common/src/coordinates.rs) -/

/-- common/src/coordinates.rs `Coordinate`. -/
structure Coordinate where
  x : Int
  y : Int
deriving DecidableEq, Repr

/-- common/src/coordinates.rs `SectorCoordinate`. -/
structure SectorCoordinate where
  x : Int
  y : Int
deriving DecidableEq, Repr

/-- common/src/coordinates.rs `Coordinate::to_sector`: Rust `i64::div_euclid`
is Euclidean division, which is what `/` denotes on `Int`. -/
def Coordinate.to_sector (c : Coordinate) (sector_size : Int) : SectorCoordinate :=
  { x := c.x / sector_size, y := c.y / sector_size }

theorem ediv_floor_bounds (x s : Int) (hs : 0 < s) :
    x / s * s ≤ x ∧ x < (x / s + 1) * s := by
  have h1 := Int.ediv_add_emod x s
  have h2 := Int.emod_nonneg x (ne_of_gt hs)
  have h3 := Int.emod_lt_of_pos x hs
  have e : (x / s + 1) * s = s * (x / s) + s := by ring
  constructor
  · linarith [h1, h2, mul_comm (x / s) s]
  · linarith [h1, h3, e]

/-- C6: for every coordinate and positive shard size the shard mapping is
floored (toward negative infinity) division on each axis — it agrees with
`Int.fdiv` and its result `q` is characterized by `q·s ≤ coord < (q+1)·s`
— it is deterministic, and `(-150, -250)` with size 100 maps to shard
`(-2, -3)`. -/
theorem c6_to_sector_floored_division :
    Coordinate.to_sector ⟨-150, -250⟩ 100 = ⟨-2, -3⟩
    ∧ ∀ x y s : Int, 0 < s →
        Coordinate.to_sector ⟨x, y⟩ s = ⟨Int.fdiv x s, Int.fdiv y s⟩
        ∧ ((Coordinate.to_sector ⟨x, y⟩ s).x * s ≤ x
            ∧ x < ((Coordinate.to_sector ⟨x, y⟩ s).x + 1) * s)
        ∧ ((Coordinate.to_sector ⟨x, y⟩ s).y * s ≤ y
            ∧ y < ((Coordinate.to_sector ⟨x, y⟩ s).y + 1) * s)
        ∧ Coordinate.to_sector ⟨x, y⟩ s = Coordinate.to_sector ⟨x, y⟩ s := by
  refine ⟨by decide, ?_⟩
  intro x y s hs
  refine ⟨?_, ediv_floor_bounds x s hs, ediv_floor_bounds y s hs, rfl⟩
  simp [Coordinate.to_sector, Int.fdiv_eq_ediv _ (le_of_lt hs)]

theorem c6_to_sector_floored_division_witness :
    Coordinate.to_sector ⟨-150, -250⟩ 100 = ⟨Int.fdiv (-150) 100, Int.fdiv (-250) 100⟩
    ∧ ((Coordinate.to_sector ⟨-150, -250⟩ 100).x * 100 ≤ -150
        ∧ -150 < ((Coordinate.to_sector ⟨-150, -250⟩ 100).x + 1) * 100)
    ∧ ((Coordinate.to_sector ⟨-150, -250⟩ 100).y * 100 ≤ -250
        ∧ -250 < ((Coordinate.to_sector ⟨-150, -250⟩ 100).y + 1) * 100)
    ∧ Coordinate.to_sector ⟨-150, -250⟩ 100 = Coordinate.to_sector ⟨-150, -250⟩ 100 :=
  c6_to_sector_floored_division.2 (-150) (-250) 100 (by decide)

/-! ## Fleet data model (common/src/units.rs, types.rs, resources.rs) -/

/-- common/src/units.rs `ShipType`. -/
inductive ShipType where
  | Scout
  | Fighter
  | Cruiser
  | Battleship
  | Carrier
  | Freighter
  | Colonizer
  | MineLay
  | Destroyer
  | Dreadnought
deriving DecidableEq, Repr

/-- common/src/units.rs `Ship`. -/
structure Ship where
  ship_type : ShipType
  health : Nat
  experience : Nat
deriving DecidableEq, Repr

/-- common/src/resources.rs `Resources`. -/
structure Resources where
  iron : Nat
  deuterium : Nat
  chronos_crystals : Nat
deriving DecidableEq, Repr

/-- common/src/types.rs `FleetState`; timestamps become Nat microseconds. -/
inductive FleetState where
  | Idle
  | Moving (destination : Coordinate) (arrival_time : Nat)
  | InCombat (battle_id : Nat)
  | Docked
  | Blockading
deriving DecidableEq, Repr

/-- common/src/units.rs `Fleet`; the opaque `AccountOwner` and `ChainId`
identifiers become strings. -/
structure Fleet where
  id : Nat
  owner : String
  owner_chain : String
  ships : List Ship
  cargo : Resources
  position : Coordinate
  state : FleetState
  last_update : Nat
deriving DecidableEq, Repr

/-! ## Commit-reveal (common/src/crypto.rs)

The SHA3-256 digest (the `sha3` crate) and the canonical serializer (the
`bcs` crate) are external to the repository, so they are parameters of the
embedded functions: `H` is the digest over byte sequences, and `ser` is
the fallible canonical serialization (`bcs::to_bytes`), whose failure case
the source swallows with `unwrap_or_default()` — an empty byte vector. -/

/-- common/src/crypto.rs `commit_fleet`:
`SHA3-256(bcs::to_bytes(fleet).unwrap_or_default() || salt)`. -/
def commit_fleet (H : List Nat → List Nat) (ser : Fleet → Option (List Nat))
    (fleet : Fleet) (salt : List Nat) : List Nat :=
  H ((ser fleet).getD [] ++ salt)

/-- common/src/crypto.rs `verify_fleet_reveal`: recompute and compare. -/
def verify_fleet_reveal (H : List Nat → List Nat) (ser : Fleet → Option (List Nat))
    (fleet : Fleet) (salt : List Nat) (commitment : List Nat) : Bool :=
  commit_fleet H ser fleet salt == commitment

/-- common/src/crypto.rs `Commitment<T>` (the `PhantomData` marker is
kept implicitly by the type parameter). -/
structure Commitment (T : Type) where
  hash : List Nat
  created_at : Nat
  revealed : Bool
deriving DecidableEq, Repr

/-- common/src/crypto.rs `Commitment::new`: hashes
`bcs::to_bytes(data).unwrap_or_default() || salt`, stores the timestamp,
and starts unrevealed. -/
def Commitment.new (H : List Nat → List Nat) {T : Type} (ser : T → Option (List Nat))
    (data : T) (salt : List Nat) (timestamp : Nat) : Commitment T :=
  { hash := H ((ser data).getD [] ++ salt), created_at := timestamp, revealed := false }

/-- C7: for every digest, serializer, fleet and salt, verifying against the
commitment of that same fleet and salt succeeds; and — when the digest is
collision-free (injective) — holding the original commitment fixed,
verification fails for any altered salt, and fails for any fleet with
altered ship counts whose canonical serialization differs (the
specification requires the canonical serializer to separate any two
distinct fleets). -/
theorem c7_commit_reveal_round_trip :
    ∀ (H : List Nat → List Nat) (ser : Fleet → Option (List Nat))
      (fleet : Fleet) (salt : List Nat),
      verify_fleet_reveal H ser fleet salt (commit_fleet H ser fleet salt) = true
      ∧ (Function.Injective H →
          (∀ salt2 : List Nat, salt2 ≠ salt →
            verify_fleet_reveal H ser fleet salt2 (commit_fleet H ser fleet salt) = false)
          ∧ (∀ fleet2 : Fleet, fleet2.ships ≠ fleet.ships →
              (ser fleet2).getD [] ≠ (ser fleet).getD [] →
              verify_fleet_reveal H ser fleet2 salt (commit_fleet H ser fleet salt) = false)) := by
  intro H ser fleet salt
  constructor
  · simp [verify_fleet_reveal]
  · intro hinj
    constructor
    · intro salt2 hne
      apply (Bool.eq_false_iff).2
      intro hver
      have heq : commit_fleet H ser fleet salt2 = commit_fleet H ser fleet salt :=
        by simpa [verify_fleet_reveal] using hver
      have hbytes := hinj heq
      exact hne (List.append_cancel_left hbytes)
    · intro fleet2 _ hserne
      apply (Bool.eq_false_iff).2
      intro hver
      have heq : commit_fleet H ser fleet2 salt = commit_fleet H ser fleet salt :=
        by simpa [verify_fleet_reveal] using hver
      have hbytes := hinj heq
      exact hserne (List.append_cancel_right hbytes)

/-- A concrete model of canonical fleet serialization, used only to
exercise theorems on concrete inputs.
Modelled from the spec: the external `bcs` crate's canonical byte
serialization of `Fleet` is missing from the repository; this follows the
spec's words — serialize the fleet's fields in canonical (declaration)
order into a deterministic byte sequence. -/
def natLeBytes (w v : Nat) : List Nat := (List.range w).map (fun k => v / 256 ^ k % 256)

def intLeBytes (v : Int) : List Nat := natLeBytes 8 (v % (2 : Int) ^ 64).toNat

def strBytes (s : String) : List Nat := s.length :: s.data.map Char.toNat

def shipTypeTag : ShipType → Nat
  | .Scout => 0
  | .Fighter => 1
  | .Cruiser => 2
  | .Battleship => 3
  | .Carrier => 4
  | .Freighter => 5
  | .Colonizer => 6
  | .MineLay => 7
  | .Destroyer => 8
  | .Dreadnought => 9

def shipBytes (s : Ship) : List Nat :=
  shipTypeTag s.ship_type :: (natLeBytes 4 s.health ++ natLeBytes 4 s.experience)

def resourcesBytes (r : Resources) : List Nat :=
  natLeBytes 16 r.iron ++ natLeBytes 16 r.deuterium ++ natLeBytes 16 r.chronos_crystals

def fleetStateBytes : FleetState → List Nat
  | .Idle => [0]
  | .Moving dest arrival => 1 :: (intLeBytes dest.x ++ intLeBytes dest.y ++ natLeBytes 8 arrival)
  | .InCombat bid => 2 :: natLeBytes 8 bid
  | .Docked => [3]
  | .Blockading => [4]

def fleetBytes (f : Fleet) : List Nat :=
  natLeBytes 8 f.id ++ strBytes f.owner ++ strBytes f.owner_chain
    ++ f.ships.length :: (f.ships.map shipBytes).flatten
    ++ resourcesBytes f.cargo ++ intLeBytes f.position.x ++ intLeBytes f.position.y
    ++ fleetStateBytes f.state ++ natLeBytes 8 f.last_update

/-- The model serializer wrapped as the fallible `bcs::to_bytes`. -/
def serModel (f : Fleet) : Option (List Nat) := some (fleetBytes f)

/-- A concrete fleet: one scout at the origin. -/
def fleetW : Fleet :=
  { id := 1, owner := "owner", owner_chain := "chain",
    ships := [{ ship_type := .Scout, health := 50, experience := 0 }],
    cargo := { iron := 0, deuterium := 0, chronos_crystals := 0 },
    position := { x := 0, y := 0 }, state := .Idle, last_update := 0 }

/-- `fleetW` with an altered ship count — a second scout added. -/
def fleetX : Fleet :=
  { fleetW with
    ships := [{ ship_type := .Scout, health := 50, experience := 0 },
              { ship_type := .Scout, health := 50, experience := 0 }] }

theorem c7_commit_reveal_round_trip_witness :
    verify_fleet_reveal id serModel fleetW [1, 2, 3]
        (commit_fleet id serModel fleetW [1, 2, 3]) = true
    ∧ verify_fleet_reveal id serModel fleetW [1, 2, 4]
        (commit_fleet id serModel fleetW [1, 2, 3]) = false
    ∧ verify_fleet_reveal id serModel fleetX [1, 2, 3]
        (commit_fleet id serModel fleetW [1, 2, 3]) = false := by
  have hinj : Function.Injective (id : List Nat → List Nat) := fun a b h => h
  refine ⟨(c7_commit_reveal_round_trip id serModel fleetW [1, 2, 3]).1, ?_, ?_⟩
  · exact ((c7_commit_reveal_round_trip id serModel fleetW [1, 2, 3]).2 hinj).1
      [1, 2, 4] (by decide)
  · exact ((c7_commit_reveal_round_trip id serModel fleetW [1, 2, 3]).2 hinj).2
      fleetX (by decide) (by decide)

/-- C8: when canonical serialization of the payload fails, `commit_fleet`
and `Commitment::new` hash the empty byte sequence concatenated with the
salt instead of propagating an error; both remain total and the
commitment is created unrevealed at the given timestamp. -/
theorem c8_serialization_failure_swallowed :
    ∀ (H : List Nat → List Nat) (ser : Fleet → Option (List Nat))
      (fleet : Fleet) (salt : List Nat) (ts : Nat),
      ser fleet = none →
        commit_fleet H ser fleet salt = H ([] ++ salt)
        ∧ Commitment.new H ser fleet salt ts
            = ({ hash := H ([] ++ salt), created_at := ts, revealed := false } : Commitment Fleet) := by
  intro H ser fleet salt ts h
  constructor
  · simp [commit_fleet, h]
  · simp [Commitment.new, h]

theorem c8_serialization_failure_swallowed_witness :
    commit_fleet id (fun _ => none) fleetW [9] = id ([] ++ [9])
    ∧ Commitment.new id (fun _ => none) fleetW [9] 5
        = ({ hash := id ([] ++ [9]), created_at := 5, revealed := false } : Commitment Fleet) :=
  c8_serialization_failure_swallowed id (fun _ => none) fleetW [9] 5 rfl

/-! ## Procedural generation (common/src/crypto.rs) -/

/-- common/src/types.rs `PlanetType`. -/
inductive PlanetType where
  | Metallic
  | GasGiant
  | Temporal
  | Terrestrial
  | Barren
  | Volcanic
deriving DecidableEq, Repr

/-- Raw ASCII bytes of a string, as fed to `hasher.update`. -/
def rawStrBytes (s : String) : List Nat := s.data.map Char.toNat

/-- common/src/crypto.rs `procedural_hash`: the SHA3-256 digest `H` over
the concatenation of the domain tag, the 32-byte seed, the little-endian
coordinates and the purpose tag. -/
def procedural_hash (H : List Nat → List Nat) (seed : List Nat) (x y : Int)
    (purpose : String) : List Nat :=
  H (rawStrBytes "LINERA_DOMINION_PROCEDURAL_V1" ++ seed
      ++ intLeBytes x ++ intLeBytes y ++ rawStrBytes purpose)

/-- common/src/crypto.rs `generate_planet_type`: byte 0 of the
type-purpose digest, reduced mod 100 and matched against the fixed
bands (the final arm of the Rust match is unreachable). -/
def generate_planet_type (H : List Nat → List Nat) (seed : List Nat) (x y : Int) :
    PlanetType :=
  let hash := procedural_hash H seed x y "planet_type"
  let b := hash.getD 0 0 % 100
  if b ≤ 24 then .Terrestrial
  else if b ≤ 44 then .Metallic
  else if b ≤ 64 then .GasGiant
  else if b ≤ 79 then .Barren
  else if b ≤ 89 then .Volcanic
  else if b ≤ 99 then .Temporal
  else .Terrestrial

/-- Spec-side weighted partition: walk the band widths, assigning the
value to the first band it falls in. -/
def pickBand (b : Nat) : List (Nat × PlanetType) → PlanetType
  | [] => .Terrestrial
  | (w, t) :: rest => if b < w then t else pickBand (b - w) rest

/-- Spec-side planet type: byte value reduced into the 0–99 range, mapped
through the weighted partition with band widths 25/20/20/15/10/10 over
the six categories. -/
def planetTypeSpec (b : Nat) : PlanetType :=
  pickBand (b % 100)
    [(25, .Terrestrial), (20, .Metallic), (20, .GasGiant),
     (15, .Barren), (10, .Volcanic), (10, .Temporal)]

theorem bands_agree : ∀ b : Nat, b < 100 →
    (if b ≤ 24 then PlanetType.Terrestrial
     else if b ≤ 44 then .Metallic
     else if b ≤ 64 then .GasGiant
     else if b ≤ 79 then .Barren
     else if b ≤ 89 then .Volcanic
     else if b ≤ 99 then .Temporal
     else .Terrestrial)
      = pickBand b
          [(25, .Terrestrial), (20, .Metallic), (20, .GasGiant),
           (15, .Barren), (10, .Volcanic), (10, .Temporal)] := by
  decide

/-- C9: for every digest, seed and coordinate, the planet type is byte 0
of the type-purpose digest reduced into the 0–99 range and mapped through
the fixed weighted partition with band widths 25/20/20/15/10/10 into the
six planet type categories, and identical inputs always yield the
identical type. -/
theorem c9_planet_type_partition :
    ∀ (H : List Nat → List Nat) (seed : List Nat) (x y : Int),
      generate_planet_type H seed x y
          = planetTypeSpec ((procedural_hash H seed x y "planet_type").getD 0 0)
      ∧ generate_planet_type H seed x y = generate_planet_type H seed x y := by
  intro H seed x y
  refine ⟨?_, rfl⟩
  unfold generate_planet_type planetTypeSpec
  exact bands_agree _ (Nat.mod_lt _ (by decide))

/-! ## Region fleet-reveal handler (region/src/contract.rs, state.rs) -/

/-- region/src/state.rs `FleetPresenceData`. -/
structure FleetPresenceData where
  fleet_id : Nat
  owner_chain : String
  position_x : Int
  position_y : Int
  commitment_hash : String
  arrived_at_micros : Nat
  revealed : Bool
deriving DecidableEq, Repr

/-- region/src/state.rs `RegionState`, restricted to the fields the
`FleetReveal` handler reads or writes (the planet, debris and battle views
are untouched by it). -/
structure RegionState where
  sector_x : Int
  sector_y : Int
  universe_seed : Nat
  fleets : List (Nat × FleetPresenceData)
  fleet_count : Nat
deriving DecidableEq, Repr

/-- `MapView::get` on an association list. -/
def mapGet {α : Type} (m : List (Nat × α)) (k : Nat) : Option α :=
  (m.find? (fun p => p.1 == k)).map Prod.snd

/-- `MapView::insert` on an association list. -/
def mapInsert {α : Type} (m : List (Nat × α)) (k : Nat) (v : α) : List (Nat × α) :=
  (k, v) :: m.filter (fun p => p.1 != k)

/-- The loop of the `Message::FleetReveal` arm of region/src/contract.rs
`execute_message`: scan keys `0..fleet_count`, and at the first stored
fleet whose `fleet_id` matches, set `revealed := true` and stop. -/
def fleetRevealGo (fleets : List (Nat × FleetPresenceData)) (fid : Nat) :
    List Nat → List (Nat × FleetPresenceData)
  | [] => fleets
  | i :: rest =>
    match mapGet fleets i with
    | some f =>
      if f.fleet_id == fid then mapInsert fleets i { f with revealed := true }
      else fleetRevealGo fleets fid rest
    | none => fleetRevealGo fleets fid rest

/-- region/src/contract.rs `execute_message`, `Message::FleetReveal` arm:
the disclosed `ship_counts` and `salt` are bound with `_` in the source
and never used, and `execute_message` has no error channel at all. -/
def execute_message_fleet_reveal (s : RegionState) (fleet_id : Nat)
    (_ship_counts : List Nat) (_salt : String) : RegionState :=
  { s with fleets := fleetRevealGo s.fleets fleet_id (List.range s.fleet_count) }

/-- A region holding a single unrevealed fleet whose stored commitment is
the string "deadbeef". -/
def c2Fleet : FleetPresenceData :=
  { fleet_id := 7, owner_chain := "", position_x := 0, position_y := 0,
    commitment_hash := "deadbeef", arrived_at_micros := 0, revealed := false }

def c2Region : RegionState :=
  { sector_x := 0, sector_y := 0, universe_seed := 0,
    fleets := [(0, c2Fleet)], fleet_count := 1 }

/-- C2 (failing input): for EVERY disclosed ship-count vector and salt —
in particular for ones that do not hash to the stored commitment — the
region's `FleetReveal` handler marks the fleet revealed and signals no
error: the preimage is never verified against the commitment. -/
theorem c2_reveal_never_verified :
    ∀ (ship_counts : List Nat) (salt : String),
      mapGet (execute_message_fleet_reveal c2Region 7 ship_counts salt).fleets 0
        = some { c2Fleet with revealed := true } := by
  intro _ _
  rfl

end Dominion
